import Mathlib

/-!
Verification of the Envelope email service (send worker, send endpoint,
drafts, SMTP connection pool, discovery stream, inbox agent) against its
natural-language specification. Each definition is a shallow embedding of
the corresponding Python function in `src/`; definitions whose Python body
is absent from `src/` (only callers and tests remain) are modelled from the
spec and say so in their doc comment.
-/

namespace Envelope

/-! ## Message store: src/app/messages.py and src/app/db.py -/

/-- Status column of the `messages` table (src/app/db.py line 37). -/
inductive MsgStatus
  | queued
  | sending
  | sent
  | failed
  deriving DecidableEq, Repr

/-- A row of the `messages` table (schema in src/app/db.py lines 29-46).
Timestamps are seconds as naturals. -/
structure MsgRow where
  id : String
  account_id : String := ""
  message_id : Option String := none
  direction : String := "outbound"
  from_addr : String := ""
  to_addr : String := ""
  subject : Option String := none
  status : MsgStatus := MsgStatus.queued
  error : Option String := none
  text_content : Option String := none
  html_content : Option String := none
  retry_count : Nat := 0
  next_retry_at : Option Nat := none
  created_at : Nat := 0
  sent_at : Option Nat := none
  deriving DecidableEq, Repr

/-- `app.messages.mark_failed` (src/app/messages.py lines 55-64):
`UPDATE messages SET status = 'failed', error = ? WHERE id = ?`. -/
def mark_failed (store : List MsgRow) (msg_id : String) (error : String) : List MsgRow :=
  store.map fun r =>
    if r.id = msg_id then { r with status := MsgStatus.failed, error := some error } else r

/-- `app.messages.mark_sent` (src/app/messages.py lines 42-52):
`UPDATE messages SET status = 'sent', message_id = ?, sent_at = ? WHERE id = ?`. -/
def mark_sent (store : List MsgRow) (msg_id : String) (message_id : String) (now : Nat) :
    List MsgRow :=
  store.map fun r =>
    if r.id = msg_id then
      { r with status := MsgStatus.sent, message_id := some message_id, sent_at := some now }
    else r

/-- Modelled from the spec: `app.messages.recover_orphans` is awaited by
`SendWorker.start` (src/app/transport/worker.py line 29) and exercised by
tests/test_worker.py, but the function itself is absent from
src/app/messages.py. The spec says: "any outbound row with status `sending`
is reset to `queued` (a prior process crashed mid-submission)". -/
def recover_orphans (store : List MsgRow) : List MsgRow :=
  store.map fun r =>
    if r.status = MsgStatus.sending then { r with status := MsgStatus.queued } else r

/-- Modelled from the spec: `app.messages.mark_retry` is awaited by
`SendWorker._handle_send_error` (src/app/transport/worker.py line 142) and
mocked in tests/test_worker.py, but the function itself is absent from
src/app/messages.py. The spec's retryable policy says: "increment
`retry_count`; ... set `next_retry` ... and status back to `queued`". -/
def mark_retry (store : List MsgRow) (msg_id : String) (error : String) (next_retry : Nat) :
    List MsgRow :=
  store.map fun r =>
    if r.id = msg_id then
      { r with status := MsgStatus.queued, error := some error,
               retry_count := r.retry_count + 1, next_retry_at := some next_retry }
    else r

/-! ## Send worker: src/app/transport/worker.py -/

/-- src/app/transport/worker.py line 14. -/
def MAX_RETRIES : Nat := 3

/-- src/app/transport/worker.py line 15. -/
def BASE_DELAY_SECONDS : Nat := 30

/-- src/app/transport/worker.py line 16. -/
def MAX_DELAY_SECONDS : Nat := 600

/-- The error kinds raised as `SmtpSendError` by `app.transport.smtp.send_message`
(src/app/transport/smtp.py lines 75-80). -/
inductive ErrType
  | auth_error
  | recipient_rejected
  | connection_error
  deriving DecidableEq, Repr

/-- The store action chosen by `SendWorker._handle_send_error`: either
`messages.mark_failed` or `messages.mark_retry` with a scheduled time. -/
inductive HandleResult
  | markFailed (error : String)
  | markRetry (error : String) (next_retry : Nat)
  deriving DecidableEq, Repr

/-- `true` exactly when the handler schedules a retry. -/
def HandleResult.isRetry : HandleResult → Bool
  | HandleResult.markFailed _ => false
  | HandleResult.markRetry _ _ => true

/-- `SendWorker._handle_send_error` (src/app/transport/worker.py lines
127-146): only `auth_error` is short-circuited to a permanent failure; any
other kind is retried while `retry_count < MAX_RETRIES`, with delay
`min(BASE_DELAY_SECONDS * 2 ** retry_count, MAX_DELAY_SECONDS)`. -/
def handle_send_error (error_type : ErrType) (message : String)
    (retry_count : Nat) (now : Nat) : HandleResult :=
  if error_type = ErrType.auth_error then
    HandleResult.markFailed message
  else if retry_count ≥ MAX_RETRIES then
    HandleResult.markFailed ("Max retries exceeded: " ++ message)
  else
    HandleResult.markRetry message
      (now + min (BASE_DELAY_SECONDS * 2 ^ retry_count) MAX_DELAY_SECONDS)

/-- Store effect of `SendWorker.start` (src/app/transport/worker.py lines
28-32): orphan recovery runs before the poll loop is spawned. -/
def SendWorker.start (store : List MsgRow) : List MsgRow :=
  recover_orphans store

/-! ## Send endpoint: src/app/main.py lines 146-208 -/

/-- The accounts table slice consumed by `send_email` (resolved via
`credential_store.get_account_with_credentials`). -/
structure Account where
  id : String
  username : String := ""
  display_name : Option String := none
  rate_limit_per_hour : Option Nat := none
  deriving DecidableEq, Repr

/-- The `SendEmail` request model (src/app/main.py lines 70-77). The Pydantic
field is named `to`; `to` is a Lean keyword, so it is called `to_addr` here. -/
structure SendEmailRequest where
  account_id : String
  to_addr : String
  subject : String
  from_email : Option String := none
  html : Option String := none
  text : Option String := none
  wait : Bool := true
  deriving DecidableEq, Repr

/-- Parameter names accepted by `app.messages.create_message`
(its signature, src/app/messages.py lines 8-14). -/
def create_message_params : List String :=
  ["account_id", "from_addr", "to_addr", "subject", "direction"]

/-- Keyword arguments passed to `messages.create_message` by `send_email`
(the call site, src/app/main.py lines 156-163). -/
def send_email_create_message_kwargs : List String :=
  ["account_id", "from_addr", "to_addr", "subject", "text_content", "html_content"]

/-- Python call semantics: a keyword argument that is not among the callee's
parameter names raises `TypeError`. Returns the first unexpected keyword. -/
def unexpected_kwarg (params kwargs : List String) : Option String :=
  kwargs.find? fun k => !(params.contains k)

/-- `app.messages.create_message` (src/app/messages.py lines 8-39): inserts
a row with status `queued`; the function has no body parameters, so the
row's `text_content` and `html_content` columns keep their NULL default.
Returns the new store and the inserted row. -/
def create_message (store : List MsgRow) (msg_id account_id from_addr to_addr : String)
    (subject : Option String) (now : Nat) : List MsgRow × MsgRow :=
  let row : MsgRow :=
    { id := msg_id, account_id := account_id, direction := "outbound",
      from_addr := from_addr, to_addr := to_addr, subject := subject,
      status := MsgStatus.queued, created_at := now }
  (store ++ [row], row)

/-- Outcome of the `/send` endpoint, with the HTTP status it maps to. -/
inductive SendOutcome
  | notFound
  | typeError (kwarg : String)
  | queuedResp (id from_addr to_addr subject : String)
  | syncSent (id : String)
  | syncError
  deriving DecidableEq, Repr

/-- HTTP status of each outcome: 404 for a missing account, 500 for an
unhandled `TypeError`, 200 for the queued and sent replies, 502 for a
classified synchronous send failure. -/
def SendOutcome.http_status : SendOutcome → Nat
  | SendOutcome.notFound => 404
  | SendOutcome.typeError _ => 500
  | SendOutcome.queuedResp _ _ _ _ => 200
  | SendOutcome.syncSent _ => 200
  | SendOutcome.syncError => 502

/-- `send_email` (src/app/main.py lines 146-208). The endpoint performs no
rate-limit admission check of any kind. It calls `messages.create_message`
with `text_content` and `html_content` keyword arguments that the function
in src/app/messages.py does not accept, which raises `TypeError` in Python;
the remaining branches mirror the async (`wait = false`) and sync paths that
would follow a successful call. `smtp_ok` abstracts the SMTP submission
outcome of the sync path. -/
def send_email (accounts : List Account) (store : List MsgRow)
    (data : SendEmailRequest) (new_id : String) (now : Nat) (smtp_ok : Bool) :
    SendOutcome × List MsgRow :=
  match accounts.find? (fun a => a.id == data.account_id) with
  | none => (SendOutcome.notFound, store)
  | some account =>
    let from_addr := data.from_email.getD account.username
    match unexpected_kwarg create_message_params send_email_create_message_kwargs with
    | some bad => (SendOutcome.typeError bad, store)
    | none =>
      let created := create_message store new_id data.account_id from_addr data.to_addr
        (some data.subject) now
      if data.wait = false then
        (SendOutcome.queuedResp new_id from_addr data.to_addr data.subject, created.1)
      else if smtp_ok then
        (SendOutcome.syncSent new_id, mark_sent created.1 new_id "<smtp-id>" now)
      else
        (SendOutcome.syncError, mark_failed created.1 new_id "smtp failure")

/-- The capped account of tests/test_app.py::test_rate_limit_blocks_after_cap. -/
def limitedAccount : Account :=
  { id := "acct-1", username := "test@example.com", rate_limit_per_hour := some 2 }

/-- The repeated asynchronous send request of the rate-limit test. -/
def rateReq : SendEmailRequest :=
  { account_id := "acct-1", to_addr := "to@example.com", subject := "Rate test",
    text := some "hi", wait := false }

/-- First, second and third consecutive sends within the hour. -/
def rateSend1 : SendOutcome × List MsgRow := send_email [limitedAccount] [] rateReq "m1" 0 true

def rateSend2 : SendOutcome × List MsgRow :=
  send_email [limitedAccount] rateSend1.2 rateReq "m2" 1 true

def rateSend3 : SendOutcome × List MsgRow :=
  send_email [limitedAccount] rateSend2.2 rateReq "m3" 2 true

/-- The account of tests/test_app.py::test_send_wait_false_returns_queued. -/
def asyncAccount : Account := { id := "acct-2", username := "test@example.com" }

/-- The asynchronous send request carrying a text body. -/
def asyncReq : SendEmailRequest :=
  { account_id := "acct-2", to_addr := "recipient@example.com", subject := "Async test",
    text := some "Hello", wait := false }

/-! ## Drafts: src/app/drafts.py -/

/-- Status column of the `drafts` table (src/app/db.py line 66). -/
inductive DraftStatus
  | draft
  | discarded
  | sent
  deriving DecidableEq, Repr

/-- A row of the `drafts` table (schema in src/app/db.py lines 63-79),
restricted to the columns the transition operations touch. -/
structure DraftRow where
  id : String
  account_id : String := ""
  status : DraftStatus := DraftStatus.draft
  to_addr : String := ""
  subject : Option String := none
  text_content : Option String := none
  message_id : Option String := none
  updated_at : Nat := 0
  sent_at : Option Nat := none
  deriving DecidableEq, Repr

/-- The updatable fields passed to `update_draft` (each `some` means the
caller supplied that keyword). -/
structure DraftFieldUpdates where
  to_addr : Option String := none
  subject : Option String := none
  text_content : Option String := none
  deriving DecidableEq, Repr

/-- `app.drafts.discard_draft` (src/app/drafts.py lines 143-151): the UPDATE
carries `AND status = 'draft'`, so a non-draft row is untouched; the Bool is
`cursor.rowcount > 0`. -/
def discard_draft (d : DraftRow) (now : Nat) : DraftRow × Bool :=
  if d.status = DraftStatus.draft then
    ({ d with status := DraftStatus.discarded, updated_at := now }, true)
  else (d, false)

/-- `app.drafts.mark_draft_sent` (src/app/drafts.py lines 154-161): the
UPDATE has `WHERE id = ?` with no status guard. -/
def mark_draft_sent (d : DraftRow) (message_id : String) (now : Nat) : DraftRow :=
  { d with status := DraftStatus.sent, message_id := some message_id,
           sent_at := some now, updated_at := now }

/-- `app.drafts.update_draft` (src/app/drafts.py lines 105-140): returns
`None` (and changes nothing) unless the row status is `draft`; otherwise the
supplied fields are written and `updated_at` refreshed. -/
def update_draft (d : DraftRow) (f : DraftFieldUpdates) (now : Nat) : Option DraftRow :=
  if d.status ≠ DraftStatus.draft then none
  else
    some { d with
      to_addr := f.to_addr.getD d.to_addr,
      subject := match f.subject with | some s => some s | none => d.subject,
      text_content := match f.text_content with | some s => some s | none => d.text_content,
      updated_at := now }

/-- A draft operation in a call sequence against one row. -/
inductive DraftOp
  | discard (now : Nat)
  | markSent (message_id : String) (now : Nat)
  | update (f : DraftFieldUpdates) (now : Nat)
  deriving DecidableEq, Repr

/-- Apply one operation to the row (an update refused with `None` leaves the
row unchanged, exactly as the SQL does). -/
def applyDraftOp (d : DraftRow) : DraftOp → DraftRow
  | DraftOp.discard now => (discard_draft d now).1
  | DraftOp.markSent mid now => mark_draft_sent d mid now
  | DraftOp.update f now => (update_draft d f now).getD d

/-- Apply a sequence of operations left to right. -/
def applyDraftOps (d : DraftRow) (ops : List DraftOp) : DraftRow :=
  ops.foldl applyDraftOp d

/-- A freshly created draft (`create_draft` inserts with status `draft`,
src/app/drafts.py line 34). -/
def freshDraft : DraftRow :=
  { id := "d1", account_id := "a1", status := DraftStatus.draft, to_addr := "to@example.com" }

/-! ## SMTP connection pool: src/app/transport/pool.py -/

/-- `PoolConfig` (src/app/transport/pool.py lines 15-21). -/
structure PoolConfig where
  max_connections_per_account : Nat := 2
  max_idle_seconds : Nat := 270
  max_lifetime_seconds : Nat := 3600
  noop_check_before_use : Bool := true
  deriving DecidableEq, Repr

/-- `PooledConnection` (src/app/transport/pool.py lines 24-29); the live
client is identified by `conn_id`. -/
structure PooledConnection where
  conn_id : Nat
  created_at : Nat := 0
  returned_at : Nat := 0
  credential_version : Nat := 0
  deriving DecidableEq, Repr

/-- The pool state for one account: the idle stack (top of stack first,
mirroring Python's append/pop at the list end), the account's current
credential version, and the ids of connections that have been closed. -/
structure PoolAccountState where
  idle : List PooledConnection := []
  credential_version : Nat := 0
  closed : List Nat := []
  deriving DecidableEq, Repr

/-- `SmtpConnectionPool.invalidate_account` (src/app/transport/pool.py lines
50-57): increment the credential version, pop every idle connection for the
account and close it. -/
def invalidate_account (s : PoolAccountState) : PoolAccountState :=
  { credential_version := s.credential_version + 1,
    idle := [],
    closed := s.closed ++ s.idle.map PooledConnection.conn_id }

/-- The successful-release tail of `SmtpConnectionPool.acquire`
(src/app/transport/pool.py lines 67-71): `conn.returned_at =
time.monotonic()` and `self._idle.setdefault(account_id, []).append(conn)`.
No credential-version check and no close happen on this path. -/
def release_success (s : PoolAccountState) (conn : PooledConnection) (now : Nat) :
    PoolAccountState :=
  { s with idle := { conn with returned_at := now } :: s.idle }

/-- The idle-stack scan of `SmtpConnectionPool._get_or_create`
(src/app/transport/pool.py lines 79-112): pop candidates LIFO; a candidate
with a stale credential version, past the lifetime cap, past the idle cap,
or failing the NOOP probe is closed and the scan continues; the first
survivor is returned for reuse. `noop_ok` gives the probe outcome per
connection id. Returns the reused connection (`none` means a fresh one is
created), the remaining stack and the updated closed list. -/
def scan_idle (cfg : PoolConfig) (current_version now : Nat) (noop_ok : Nat → Bool) :
    List PooledConnection → List Nat →
    Option PooledConnection × List PooledConnection × List Nat
  | [], closed => (none, [], closed)
  | candidate :: rest, closed =>
    if candidate.credential_version ≠ current_version then
      scan_idle cfg current_version now noop_ok rest (closed ++ [candidate.conn_id])
    else if now - candidate.created_at > cfg.max_lifetime_seconds then
      scan_idle cfg current_version now noop_ok rest (closed ++ [candidate.conn_id])
    else if now - candidate.returned_at > cfg.max_idle_seconds then
      scan_idle cfg current_version now noop_ok rest (closed ++ [candidate.conn_id])
    else if cfg.noop_check_before_use && !(noop_ok candidate.conn_id) then
      scan_idle cfg current_version now noop_ok rest (closed ++ [candidate.conn_id])
    else
      (some candidate, rest, closed)

/-- A connection leased before invalidation: created at version 0. -/
def inFlightConn : PooledConnection :=
  { conn_id := 1, created_at := 0, returned_at := 0, credential_version := 0 }

/-- `invalidate_account` runs while `inFlightConn` is leased out. -/
def poolAfterInvalidate : PoolAccountState :=
  invalidate_account { idle := [], credential_version := 0, closed := [] }

/-- The in-flight lease is then released normally. -/
def poolAfterRelease : PoolAccountState := release_success poolAfterInvalidate inFlightConn 10

/-! ## Discovery stream: src/app/discovery.py -/

/-- The static provider-alias mapping `MX_ALIASES`
(src/app/discovery.py lines 12-17). -/
def MX_ALIASES (base : String) : List String :=
  if base = "google.com" then ["gmail.com"]
  else if base = "outlook.com" then ["office365.com"]
  else if base = "protection.outlook.com" then ["office365.com"]
  else if base = "microsoft.com" then ["office365.com"]
  else []

/-- Domain extraction of `discover_stream`:
`email.split("@", 1)[1].lower()` (src/app/discovery.py line 271), on the
character list: everything after the first `@`, lowercased. -/
def stream_domain (email : String) : String :=
  String.mk (((email.data.dropWhile fun c => c != '@').drop 1).map Char.toLower)

/-- The alias-domain computation of `discover_stream` (src/app/discovery.py
lines 298-303): collect each MX base together with its provider aliases,
then discard the user's own domain. The Python set is modelled as a
deduplicated list; only emptiness and membership matter downstream. -/
def alias_domains (domain : String) (mx_bases : List String) : List String :=
  ((mx_bases.flatMap fun b => b :: MX_ALIASES b).filter fun d => d != domain).dedup

/-- An emitted server-sent event, by name; `complete` records whether it
carries the invalid-address error field. -/
inductive StreamEvent
  | phase (name : String)
  | complete (has_error : Bool)
  deriving DecidableEq, Repr

/-- The event skeleton of `discover_stream` (src/app/discovery.py lines
266-343): an address without `@` yields only an error `complete`; otherwise
the phases `dns`, `autoconfig`, optionally `aliases` (only when
`alias_domains` is non-empty), `probing`, and the terminal `complete` are
emitted in that order. `mx_bases` abstracts the MX lookup results of the dns
phase; no other input influences which events appear or their order. -/
def discover_stream (email : String) (mx_bases : List String) : List StreamEvent :=
  if ¬ email.data.contains '@' then [StreamEvent.complete true]
  else
    [StreamEvent.phase "dns", StreamEvent.phase "autoconfig"]
      ++ (if (alias_domains (stream_domain email) mx_bases).isEmpty then []
          else [StreamEvent.phase "aliases"])
      ++ [StreamEvent.phase "probing", StreamEvent.complete false]

/-! ## Inbox agent: src/app/agent/inbox_agent.py -/

/-- The slice of `InboundMessage` (src/app/transport/imap.py) the dedup and
journalling paths read. -/
structure InboundMessage where
  uid : String
  message_id : Option String := none
  from_addr : String := ""
  subject : String := ""
  deriving DecidableEq, Repr

/-- A row of the `agent_actions` table; its `inbound_message_id` column is
UNIQUE (src/app/db.py line 50). -/
structure AgentAction where
  id : String
  inbound_message_id : String
  action : String := ""
  outbound_message_id : Option String := none
  deriving DecidableEq, Repr

/-- `InboxAgent._already_processed` (src/app/agent/inbox_agent.py lines
141-149): without a Message-ID the check short-circuits to False and never
consults the `agent_actions` table. -/
def already_processed (actions : List AgentAction) (msg : InboundMessage) : Bool :=
  match msg.message_id with
  | none => false
  | some mid => actions.any fun a => a.inbound_message_id == mid

/-- The journal key of `InboxAgent._record_action`
(src/app/agent/inbox_agent.py line 429): `msg.message_id or f"uid:{msg.uid}"`
with the brace placeholder holding the uid. -/
def record_key (msg : InboundMessage) : String :=
  match msg.message_id with
  | some mid => mid
  | none => "uid:" ++ msg.uid

/-- `InboxAgent._record_action` (src/app/agent/inbox_agent.py lines
417-452): INSERT into `agent_actions`; a duplicate of the UNIQUE
`inbound_message_id` key makes the INSERT fail. -/
def record_action (actions : List AgentAction) (new_id : String) (msg : InboundMessage)
    (act : String) (outbound : Option String) : Except String (List AgentAction) :=
  if actions.any fun a => a.inbound_message_id == record_key msg then
    Except.error "UNIQUE constraint failed: agent_actions.inbound_message_id"
  else
    Except.ok (actions ++
      [{ id := new_id, inbound_message_id := record_key msg, action := act,
         outbound_message_id := outbound }])

/-- `InboxAgent._send_reply` (src/app/agent/inbox_agent.py lines 321-341):
any exception from the SMTP submission is caught, logged, and turned into
`None`. `smtp_ok` abstracts whether the submission succeeds. -/
def send_reply (smtp_ok : Bool) (new_outbound_id : String) : Option String :=
  if smtp_ok then some new_outbound_id else none

/-- Python truthiness of the optional `draft_reply` string: `None` and the
empty string are falsy. -/
def py_truthy : Option String → Bool
  | none => false
  | some s => !s.data.isEmpty

/-- The observable effects of one `_process_message` run. -/
structure ProcessEffects where
  outbound_message_id : Option String
  marked_seen : Bool
  draft_created : Bool
  journal_result : Except String (List AgentAction)
  deriving Repr

/-- The dispatch of `InboxAgent._process_message`
(src/app/agent/inbox_agent.py lines 181-221), after the LLM reply has been
parsed into `classification` and `draft_reply`. The guards
`action == "auto_reply" and draft_reply` (line 183) and
`action == "draft_for_review" and draft_reply` (line 189) use Python
truthiness of `draft_reply`, modelled by `py_truthy`. On the auto-reply
branch `_send_reply` runs and `_mark_seen_safe` is then called
unconditionally; the review and escalate branches create a draft and mark
seen; ignore only marks seen; a classification matching no branch (or an
untruthy reply on the first two) falls through without marking seen; every
path ends in `_record_action`. -/
def process_message (actions : List AgentAction) (msg : InboundMessage)
    (classification : String) (draft_reply : Option String)
    (smtp_ok : Bool) (new_outbound_id new_action_id : String) : ProcessEffects :=
  if classification = "auto_reply" ∧ py_truthy draft_reply = true then
    let outbound := send_reply smtp_ok new_outbound_id
    { outbound_message_id := outbound,
      marked_seen := true,
      draft_created := false,
      journal_result := record_action actions new_action_id msg classification outbound }
  else if classification = "draft_for_review" ∧ py_truthy draft_reply = true then
    { outbound_message_id := none, marked_seen := true, draft_created := true,
      journal_result := record_action actions new_action_id msg classification none }
  else if classification = "escalate" then
    { outbound_message_id := none, marked_seen := true, draft_created := true,
      journal_result := record_action actions new_action_id msg classification none }
  else if classification = "ignore" then
    { outbound_message_id := none, marked_seen := true, draft_created := false,
      journal_result := record_action actions new_action_id msg classification none }
  else
    { outbound_message_id := none, marked_seen := false, draft_created := false,
      journal_result := record_action actions new_action_id msg classification none }

/-- An inbound message whose Message-ID header is absent. -/
def noIdInbound : InboundMessage := { uid := "42", message_id := none }

/-- A journal row left by an earlier poll of the same uid-keyed message. -/
def uidAction : AgentAction :=
  { id := "act-0", inbound_message_id := "uid:42", action := "ignore" }

/-- An inbound message carrying a Message-ID, for the failing auto-reply
scenario. -/
def inboundWithId : InboundMessage := { uid := "7", message_id := some "<m1@x>" }

/-- A store row left in `sending` by a crashed worker. -/
def orphanRow : MsgRow := { id := "m1", account_id := "a1", status := MsgStatus.sending }

/-! ## Theorems -/

/-- C1: at `SendWorker.start`, before the poll loop is spawned, orphan
recovery resets every row in status `sending` to `queued`: each previously
`sending` row reappears with status `queued`, every other row is kept
unchanged, and no `sending` row survives. The recovery step is a total
function of the store, so startup completes. -/
theorem sendWorker_start_recovers_orphans (store : List MsgRow) :
    (∀ r ∈ store, r.status = MsgStatus.sending →
      { r with status := MsgStatus.queued } ∈ SendWorker.start store) ∧
    (∀ r ∈ store, r.status ≠ MsgStatus.sending → r ∈ SendWorker.start store) ∧
    (∀ r ∈ SendWorker.start store, r.status ≠ MsgStatus.sending) := by
  refine ⟨?_, ?_, ?_⟩
  · intro r hr hs
    simp only [SendWorker.start, recover_orphans, List.mem_map]
    exact ⟨r, hr, by rw [if_pos hs]⟩
  · intro r hr hs
    simp only [SendWorker.start, recover_orphans, List.mem_map]
    exact ⟨r, hr, by rw [if_neg hs]⟩
  · intro r hr
    simp only [SendWorker.start, recover_orphans, List.mem_map] at hr
    obtain ⟨s, -, rfl⟩ := hr
    by_cases h : s.status = MsgStatus.sending
    · rw [if_pos h]
      simp
    · rw [if_neg h]
      exact h

/-- Witness for C1: a one-row store holding a `sending` orphan is recovered
to `queued` at startup. -/
theorem sendWorker_start_recovers_orphans_witness :
    orphanRow.status = MsgStatus.sending ∧
    { orphanRow with status := MsgStatus.queued } ∈ SendWorker.start [orphanRow] :=
  ⟨rfl, (sendWorker_start_recovers_orphans [orphanRow]).1 orphanRow (by simp) rfl⟩

/-- C2 counterexample: a `recipient_rejected` failure at retry count 0 is
scheduled for retry 30 seconds out — it is not marked failed, contradicting
the claimed terminal handling. -/
theorem recipient_rejected_not_terminal :
    handle_send_error ErrType.recipient_rejected "550 user unknown" 0 0 =
      HandleResult.markRetry "550 user unknown" 30 ∧
    (handle_send_error ErrType.recipient_rejected "550 user unknown" 0 0).isRetry = true := by
  constructor <;> rfl

/-- C2 amended: `_handle_send_error` short-circuits only `auth_error`;
`recipient_rejected` follows the generic retry path — below MAX_RETRIES the
row is scheduled for retry with the backoff delay, and only at or above
MAX_RETRIES is it marked failed (with the "Max retries exceeded" message). -/
theorem recipient_rejected_retry_policy (message : String) (k now : Nat) :
    (k < MAX_RETRIES →
      handle_send_error ErrType.recipient_rejected message k now =
        HandleResult.markRetry message
          (now + min (BASE_DELAY_SECONDS * 2 ^ k) MAX_DELAY_SECONDS)) ∧
    (MAX_RETRIES ≤ k →
      handle_send_error ErrType.recipient_rejected message k now =
        HandleResult.markFailed ("Max retries exceeded: " ++ message)) := by
  constructor
  · intro hk
    unfold handle_send_error
    rw [if_neg (by decide), if_neg (Nat.not_le.mpr hk)]
  · intro hk
    unfold handle_send_error
    rw [if_neg (by decide), if_pos hk]

/-- Witness for the amended C2 at retry count 0. -/
theorem recipient_rejected_retry_policy_witness :
    0 < MAX_RETRIES ∧
    handle_send_error ErrType.recipient_rejected "550" 0 7 =
      HandleResult.markRetry "550" 37 := by
  have h := (recipient_rejected_retry_policy "550" 0 7).1 (by decide)
  have e : 7 + min (BASE_DELAY_SECONDS * 2 ^ 0) MAX_DELAY_SECONDS = 37 := by decide
  exact ⟨by decide, by rw [h, e]⟩

/-- C8: a retryable `connection_error` below MAX_RETRIES is scheduled with
delay min(30 · 2^k, 600) seconds — 30, 60, 120 for k = 0, 1, 2 — and
applying the scheduled `mark_retry` returns the row to `queued` with
`next_retry_at` set that far in the future. -/
theorem connection_error_backoff (message : String) (k now : Nat)
    (hk : k < MAX_RETRIES) (store : List MsgRow) (msg_id : String) :
    handle_send_error ErrType.connection_error message k now =
      HandleResult.markRetry message
        (now + min (BASE_DELAY_SECONDS * 2 ^ k) MAX_DELAY_SECONDS) ∧
    (k = 0 → min (BASE_DELAY_SECONDS * 2 ^ k) MAX_DELAY_SECONDS = 30) ∧
    (k = 1 → min (BASE_DELAY_SECONDS * 2 ^ k) MAX_DELAY_SECONDS = 60) ∧
    (k = 2 → min (BASE_DELAY_SECONDS * 2 ^ k) MAX_DELAY_SECONDS = 120) ∧
    (∀ r ∈ mark_retry store msg_id message
        (now + min (BASE_DELAY_SECONDS * 2 ^ k) MAX_DELAY_SECONDS),
      r.id = msg_id →
        r.status = MsgStatus.queued ∧
        r.next_retry_at =
          some (now + min (BASE_DELAY_SECONDS * 2 ^ k) MAX_DELAY_SECONDS)) := by
  refine ⟨?_, ?_, ?_, ?_, ?_⟩
  · unfold handle_send_error
    rw [if_neg (by decide), if_neg (Nat.not_le.mpr hk)]
  · rintro rfl; decide
  · rintro rfl; decide
  · rintro rfl; decide
  · intro r hr hid
    simp only [mark_retry, List.mem_map] at hr
    obtain ⟨s, -, rfl⟩ := hr
    by_cases h : s.id = msg_id
    · rw [if_pos h]
      exact ⟨rfl, rfl⟩
    · rw [if_neg h] at hid
      exact absurd hid h

/-- Witness for C8 at retry count 1 (delay 60 s). -/
theorem connection_error_backoff_witness :
    1 < MAX_RETRIES ∧
    handle_send_error ErrType.connection_error "Timeout" 1 1000 =
      HandleResult.markRetry "Timeout" 1060 := by
  have h := (connection_error_backoff "Timeout" 1 1000 (by decide) [] "m1").1
  have e : 1000 + min (BASE_DELAY_SECONDS * 2 ^ 1) MAX_DELAY_SECONDS = 1060 := by decide
  exact ⟨by decide, by rw [h, e]⟩

/-- C3 (code bug evidence): with `rate_limit_per_hour = 2`, three
consecutive sends through `send_email` are never answered 429 — the
endpoint has no rate-limit branch at all, and each call in fact raises
TypeError (HTTP 500) at the `create_message` call because of the unexpected
`text_content` keyword, where the repo's own test expects 200, 200, 429. -/
theorem rate_limit_never_enforced :
    limitedAccount.rate_limit_per_hour = some 2 ∧
    rateSend1.1 = SendOutcome.typeError "text_content" ∧
    rateSend2.1 = SendOutcome.typeError "text_content" ∧
    rateSend3.1 = SendOutcome.typeError "text_content" ∧
    rateSend3.1.http_status = 500 :=
  ⟨rfl, rfl, rfl, rfl, rfl⟩

/-- C4 (code bug evidence): the asynchronous send neither persists bodies
nor returns the queued reply: the `create_message` call raises TypeError on
the unexpected `text_content` keyword (HTTP 500) and the store is left
unchanged; and the `create_message` of src/app/messages.py, even called
with its accepted parameters, stores no text or HTML body. -/
theorem async_send_bodies_not_persisted :
    (send_email [asyncAccount] [] asyncReq "m1" 0 true).1 =
      SendOutcome.typeError "text_content" ∧
    (send_email [asyncAccount] [] asyncReq "m1" 0 true).2 = [] ∧
    unexpected_kwarg create_message_params send_email_create_message_kwargs =
      some "text_content" ∧
    (create_message [] "m1" "acct-2" "test@example.com" "recipient@example.com"
        (some "Async test") 0).2.text_content = none ∧
    (create_message [] "m1" "acct-2" "test@example.com" "recipient@example.com"
        (some "Async test") 0).2.html_content = none :=
  ⟨rfl, rfl, rfl, rfl, rfl⟩

/-- C5 counterexample: a failed auto-reply submission (`smtp_ok = false`,
so `_send_reply` returns None) still marks the inbound seen on the
auto-reply path. -/
theorem auto_reply_failure_marks_seen :
    (process_message [] inboundWithId "auto_reply" (some "Thanks") false
      "out-1" "act-1").marked_seen = true ∧
    (process_message [] inboundWithId "auto_reply" (some "Thanks") false
      "out-1" "act-1").outbound_message_id = none := by
  constructor <;> rfl

/-- C5 amended: when the classification is auto_reply and the draft reply
is truthy (non-empty, so the branch at inbox_agent.py line 183 fires),
`_send_reply` swallows the SMTP failure and returns None, after which
`_mark_seen_safe` runs unconditionally — the failed submission leaves the
message marked seen, with a null outbound id in the journal. -/
theorem auto_reply_failure_still_marks_seen (actions : List AgentAction)
    (msg : InboundMessage) (reply : String) (oid aid : String)
    (hne : py_truthy (some reply) = true) :
    (process_message actions msg "auto_reply" (some reply) false oid aid).marked_seen =
      true ∧
    (process_message actions msg "auto_reply" (some reply) false
      oid aid).outbound_message_id = none := by
  have hc : ("auto_reply" = "auto_reply" ∧ py_truthy (some reply) = true) := ⟨rfl, hne⟩
  unfold process_message
  rw [if_pos hc]
  exact ⟨rfl, rfl⟩

/-- Witness for the amended C5: the non-empty reply "Thanks" with a failed
submission is still marked seen. -/
theorem auto_reply_failure_still_marks_seen_witness :
    py_truthy (some "Thanks") = true ∧
    (process_message [] inboundWithId "auto_reply" (some "Thanks") false
      "out-1" "act-1").marked_seen = true :=
  ⟨by decide,
   (auto_reply_failure_still_marks_seen [] inboundWithId "Thanks" "out-1" "act-1"
     (by decide)).1⟩

/-- C6 counterexample: starting from a fresh draft, the operation sequence
discard-then-mark-sent moves the row discarded → sent — a draft whose
status is `discarded` changes status again. -/
theorem draft_discarded_to_sent :
    (applyDraftOps freshDraft [DraftOp.discard 1]).status = DraftStatus.discarded ∧
    (applyDraftOps freshDraft
      [DraftOp.discard 1, DraftOp.markSent "m1" 2]).status = DraftStatus.sent := by
  constructor <;> rfl

/-- C6 amended: `discard_draft` and `update_draft` leave a non-draft row
unchanged, and from status `draft` the reachable statuses are exactly
`discarded` and `sent` (an accepted update keeps status `draft`);
`mark_draft_sent` however has no status guard and sets every row, whatever
its status, to `sent` — so the claimed invariant holds exactly for
operation sequences in which `mark_draft_sent` is applied only to rows
still in status `draft`, as the HTTP layer guarantees with its 409 check. -/
theorem draft_transitions (d : DraftRow) (f : DraftFieldUpdates) (mid : String) (now : Nat) :
    (d.status ≠ DraftStatus.draft →
      (discard_draft d now).1 = d ∧ update_draft d f now = none) ∧
    (d.status = DraftStatus.draft →
      (discard_draft d now).1.status = DraftStatus.discarded ∧
      (mark_draft_sent d mid now).status = DraftStatus.sent ∧
      ∀ d2 ∈ update_draft d f now, d2.status = DraftStatus.draft) ∧
    (mark_draft_sent d mid now).status = DraftStatus.sent := by
  refine ⟨?_, ?_, rfl⟩
  · intro h
    constructor
    · unfold discard_draft
      rw [if_neg h]
    · unfold update_draft
      rw [if_pos h]
  · intro h
    refine ⟨?_, rfl, ?_⟩
    · unfold discard_draft
      rw [if_pos h]
    · intro d2 hd2
      unfold update_draft at hd2
      rw [if_neg (not_not_intro h)] at hd2
      simp only [Option.mem_def, Option.some.injEq] at hd2
      subst hd2
      exact h

/-- Witness for the amended C6: the fresh draft discards, and an already
discarded row is still forced to `sent` by `mark_draft_sent`. -/
theorem draft_transitions_witness :
    freshDraft.status = DraftStatus.draft ∧
    (discard_draft freshDraft 1).1.status = DraftStatus.discarded ∧
    (mark_draft_sent { freshDraft with status := DraftStatus.discarded }
      "m1" 2).status = DraftStatus.sent := by
  have h := draft_transitions freshDraft ⟨none, none, none⟩ "m1" 1
  have h2 := draft_transitions { freshDraft with status := DraftStatus.discarded }
    ⟨none, none, none⟩ "m1" 2
  exact ⟨rfl, (h.2.1 rfl).1, h2.2.2⟩

/-- C7 counterexample: `invalidate_account` bumps the version to 1 while a
version-0 connection is leased out; releasing that lease pushes it back
onto the idle stack and closes nothing — it is not closed on release. -/
theorem stale_lease_released_to_idle :
    poolAfterRelease.credential_version = 1 ∧
    inFlightConn.credential_version = 0 ∧
    poolAfterRelease.idle = [{ inFlightConn with returned_at := 10 }] ∧
    poolAfterRelease.closed = [] :=
  ⟨rfl, rfl, rfl, rfl⟩

/-- Any connection the idle scan hands out for reuse carries the account's
current credential version. -/
theorem scan_idle_some_version (cfg : PoolConfig) (current now : Nat)
    (noop_ok : Nat → Bool) :
    ∀ (idle : List PooledConnection) (closed : List Nat) (c : PooledConnection)
      (rest : List PooledConnection) (cl : List Nat),
      scan_idle cfg current now noop_ok idle closed = (some c, rest, cl) →
      c.credential_version = current := by
  intro idle
  induction idle with
  | nil =>
    intro closed c rest cl h
    simp [scan_idle] at h
  | cons hd tl ih =>
    intro closed c rest cl h
    simp only [scan_idle] at h
    split_ifs at h with h1 h2 h3 h4
    · exact ih _ c rest cl h
    · exact ih _ c rest cl h
    · exact ih _ c rest cl h
    · exact ih _ c rest cl h
    · simp only [Prod.mk.injEq, Option.some.injEq] at h
      rw [← h.1]
      exact not_not.mp h1

/-- A stack in which every candidate is stale is closed wholesale in stack
order; nothing is reused and nothing survives. -/
theorem scan_idle_all_stale (cfg : PoolConfig) (current now : Nat)
    (noop_ok : Nat → Bool) :
    ∀ (idle : List PooledConnection) (closed : List Nat),
      (∀ c ∈ idle, c.credential_version ≠ current) →
      scan_idle cfg current now noop_ok idle closed =
        (none, [], closed ++ idle.map PooledConnection.conn_id) := by
  intro idle
  induction idle with
  | nil =>
    intro closed _
    simp [scan_idle]
  | cons hd tl ih =>
    intro closed hall
    have h1 : hd.credential_version ≠ current := hall hd (List.mem_cons_self hd tl)
    have htl : ∀ c ∈ tl, c.credential_version ≠ current :=
      fun c hc => hall c (List.mem_cons_of_mem hd hc)
    simp only [scan_idle]
    rw [if_pos h1, ih (closed ++ [hd.conn_id]) htl]
    simp

/-- C7 amended: releasing a lease pushes the connection back onto the idle
stack with no version check and closes nothing (it is not closed on
release); the stale connection is nevertheless never reused — every
connection the next acquire's idle scan returns carries the current
credential version, and a stack of stale connections is closed wholesale
with nothing reused. -/
theorem stale_lease_never_reused (cfg : PoolConfig) (s : PoolAccountState)
    (conn : PooledConnection) (now : Nat) (idle : List PooledConnection)
    (closed : List Nat) (current t : Nat) (noop_ok : Nat → Bool) :
    ((release_success s conn now).idle = { conn with returned_at := now } :: s.idle ∧
     (release_success s conn now).closed = s.closed) ∧
    (∀ c rest cl, scan_idle cfg current t noop_ok idle closed = (some c, rest, cl) →
      c.credential_version = current) ∧
    ((∀ c ∈ idle, c.credential_version ≠ current) →
      scan_idle cfg current t noop_ok idle closed =
        (none, [], closed ++ idle.map PooledConnection.conn_id)) :=
  ⟨⟨rfl, rfl⟩,
   fun c rest cl h => scan_idle_some_version cfg current t noop_ok idle closed c rest cl h,
   fun hall => scan_idle_all_stale cfg current t noop_ok idle closed hall⟩

/-- Witness for the amended C7: the stale released connection of the
counterexample scenario is closed, not reused, by the next acquire scan. -/
theorem stale_lease_never_reused_witness :
    scan_idle {} 1 10 (fun _ => true) [{ inFlightConn with returned_at := 10 }] [] =
      (none, [], [1]) := by
  have h := (stale_lease_never_reused {} poolAfterInvalidate inFlightConn 10
      [{ inFlightConn with returned_at := 10 }] [] 1 10 (fun _ => true)).2.2 (by decide)
  simpa using h

/-- `alias_domains` is empty exactly when every domain produced by alias
expansion equals the input domain. -/
theorem alias_domains_eq_nil (domain : String) (mx_bases : List String) :
    alias_domains domain mx_bases = [] ↔
      ∀ d ∈ (mx_bases.flatMap fun b => b :: MX_ALIASES b), d = domain := by
  simp [alias_domains, List.dedup_eq_nil, List.filter_eq_nil_iff]

/-- C9: for an address containing `@`, the stream is exactly dns,
autoconfig, optionally aliases, probing, then the terminal complete, in
that order — and the aliases phase appears iff alias expansion produced at
least one domain different from the input domain. -/
theorem discover_stream_phase_order (email : String) (mx_bases : List String)
    (h : email.data.contains '@' = true) :
    (discover_stream email mx_bases =
        [StreamEvent.phase "dns", StreamEvent.phase "autoconfig",
         StreamEvent.phase "aliases", StreamEvent.phase "probing",
         StreamEvent.complete false] ∨
     discover_stream email mx_bases =
        [StreamEvent.phase "dns", StreamEvent.phase "autoconfig",
         StreamEvent.phase "probing", StreamEvent.complete false]) ∧
    (StreamEvent.phase "aliases" ∈ discover_stream email mx_bases ↔
      ∃ d ∈ (mx_bases.flatMap fun b => b :: MX_ALIASES b), d ≠ stream_domain email) := by
  unfold discover_stream
  rw [if_neg (not_not_intro h)]
  by_cases he : alias_domains (stream_domain email) mx_bases = []
  · rw [if_pos (List.isEmpty_iff.mpr he)]
    constructor
    · right
      rfl
    · constructor
      · intro hmem
        exact absurd hmem (by decide)
      · rintro ⟨d, hd, hne⟩
        exact absurd ((alias_domains_eq_nil (stream_domain email) mx_bases).mp he d hd) hne
  · rw [if_neg (fun hh => he (List.isEmpty_iff.mp hh))]
    constructor
    · left
      rfl
    · constructor
      · intro _
        by_contra hcon
        push_neg at hcon
        exact he ((alias_domains_eq_nil (stream_domain email) mx_bases).mpr hcon)
      · intro _
        decide

/-- Witness for C9: `user@example.com` with MX base `google.com` expands to
the alias `gmail.com`, so the aliases phase is emitted in order. -/
theorem discover_stream_phase_order_witness :
    "user@example.com".data.contains '@' = true ∧
    discover_stream "user@example.com" ["google.com"] =
      [StreamEvent.phase "dns", StreamEvent.phase "autoconfig",
       StreamEvent.phase "aliases", StreamEvent.phase "probing",
       StreamEvent.complete false] := by
  have h := discover_stream_phase_order "user@example.com" ["google.com"] (by decide)
  refine ⟨by decide, ?_⟩
  rcases h.1 with h1 | h1
  · exact h1
  · have hm := h.2.mpr ⟨"gmail.com", by decide, by decide⟩
    rw [h1] at hm
    exact absurd hm (by decide)

/-- A duplicate journal key makes the `_record_action` INSERT fail on the
UNIQUE constraint of `agent_actions.inbound_message_id`. -/
theorem record_action_duplicate (actions : List AgentAction) (new_id : String)
    (msg : InboundMessage) (act : String) (outbound : Option String)
    (hdup : ∃ a ∈ actions, a.inbound_message_id = record_key msg) :
    record_action actions new_id msg act outbound =
      Except.error "UNIQUE constraint failed: agent_actions.inbound_message_id" := by
  obtain ⟨a, ha, hk⟩ := hdup
  have hc : (actions.any fun a => a.inbound_message_id == record_key msg) = true :=
    List.any_eq_true.mpr ⟨a, ha, by simp [hk]⟩
  unfold record_action
  rw [if_pos hc]

/-- C10: an inbound lacking a Message-ID is never deduplicated — the check
returns false even when a `uid:`-keyed journal row for the same message
already exists, so the message is processed again and the subsequent
journal INSERT violates the UNIQUE constraint on inbound_message_id,
whatever the classification outcome. -/
theorem missing_message_id_breaks_dedup (actions : List AgentAction) (uid : String)
    (classification : String) (draft_reply : Option String) (smtp_ok : Bool)
    (oid aid : String)
    (hrow : ∃ a ∈ actions, a.inbound_message_id = "uid:" ++ uid) :
    already_processed actions { uid := uid, message_id := none } = false ∧
    (process_message actions { uid := uid, message_id := none } classification
        draft_reply smtp_ok oid aid).journal_result =
      Except.error "UNIQUE constraint failed: agent_actions.inbound_message_id" := by
  have hdup : ∃ a ∈ actions,
      a.inbound_message_id = record_key { uid := uid, message_id := none } := hrow
  refine ⟨rfl, ?_⟩
  unfold process_message
  split_ifs <;>
    exact record_action_duplicate actions aid { uid := uid, message_id := none }
      classification _ hdup

/-- Witness for C10: with the `uid:42` journal row present, the dedup check
still answers false and re-journaling the id-less message fails. -/
theorem missing_message_id_breaks_dedup_witness :
    already_processed [uidAction] noIdInbound = false ∧
    (process_message [uidAction] noIdInbound "ignore" none true
        "out-1" "act-1").journal_result =
      Except.error "UNIQUE constraint failed: agent_actions.inbound_message_id" :=
  missing_message_id_breaks_dedup [uidAction] "42" "ignore" none true "out-1" "act-1"
    ⟨uidAction, by decide, by decide⟩

end Envelope
